import Mathlib

/-
Verification of the species module (crawl-ref/source/species.cc).

The module is a species-trait lookup layer plus one state transition,
change_species_to.  The per-species data table (species-data.h), the
species_type and equipment_type enum declarations, and a handful of helpers
called from this file (species_apt_factor, perma_mutate, you_can_wear,
coinflip) live outside the fragment under review; where one of those decides
a property it is modelled from the spec, as noted on its definition.
Everything else is translated directly from species.cc.
-/

namespace Crawl

/-- Modelled from the spec: species-type.h is not part of this fragment.
The constructors are the species named in species.cc (plus the default
species SP_HUMAN), in enum order; SP_UNKNOWN is represented by Option.none
where it can occur. -/
inductive SpeciesType
  | SP_HUMAN
  | SP_DEEP_ELF
  | SP_HILL_ORC
  | SP_NAGA
  | SP_TENGU
  | SP_FELID
  | SP_MUMMY
  | SP_OCTOPODE
  | SP_GNOLL
  | SP_BARACHI
  | SP_DEMIGOD
  | SP_DEMONSPAWN
  | SP_RED_DRACONIAN
  | SP_WHITE_DRACONIAN
  | SP_GREEN_DRACONIAN
  | SP_YELLOW_DRACONIAN
  | SP_GREY_DRACONIAN
  | SP_BLACK_DRACONIAN
  | SP_PURPLE_DRACONIAN
  | SP_PALE_DRACONIAN
  | SP_MOTTLED_DRACONIAN
  | SP_BASE_DRACONIAN
  deriving DecidableEq, Fintype, Repr

open SpeciesType

/-- Modelled from the spec: equipment-type.h is not part of this fragment.
Constructors follow the upstream enum order used by the loops in species.cc:
the player slots run from EQ_WEAPON (EQ_FIRST_EQUIP) to EQ_RING_AMULET
(the last slot below NUM_EQUIP), the jewellery range is EQ_LEFT_RING
(EQ_FIRST_JEWELLERY) through EQ_RING_AMULET (EQ_LAST_JEWELLERY), and the
query-only pseudo-slots named in species_bans_eq come after. EQ_NONE is the
out-of-band value -1. -/
inductive EquipmentType
  | EQ_NONE
  | EQ_WEAPON
  | EQ_CLOAK
  | EQ_HELMET
  | EQ_GLOVES
  | EQ_BOOTS
  | EQ_SHIELD
  | EQ_BODY_ARMOUR
  | EQ_LEFT_RING
  | EQ_RIGHT_RING
  | EQ_AMULET
  | EQ_RING_ONE
  | EQ_RING_TWO
  | EQ_RING_THREE
  | EQ_RING_FOUR
  | EQ_RING_FIVE
  | EQ_RING_SIX
  | EQ_RING_SEVEN
  | EQ_RING_EIGHT
  | EQ_RING_AMULET
  | EQ_STAFF
  | EQ_RINGS
  | EQ_RINGS_PLUS
  | EQ_ALL_ARMOUR
  deriving DecidableEq, Fintype, Repr

open EquipmentType

/-- The player equipment slots, EQ_FIRST_EQUIP up to (excluding) NUM_EQUIP,
in enum order; the range iterated by the fall-away loop of
change_species_to. -/
def player_equip_slots : List EquipmentType :=
  [EQ_WEAPON, EQ_CLOAK, EQ_HELMET, EQ_GLOVES, EQ_BOOTS, EQ_SHIELD,
   EQ_BODY_ARMOUR, EQ_LEFT_RING, EQ_RIGHT_RING, EQ_AMULET,
   EQ_RING_ONE, EQ_RING_TWO, EQ_RING_THREE, EQ_RING_FOUR, EQ_RING_FIVE,
   EQ_RING_SIX, EQ_RING_SEVEN, EQ_RING_EIGHT, EQ_RING_AMULET]

/-- The jewellery slots, EQ_FIRST_JEWELLERY through EQ_LAST_JEWELLERY in enum
order; the range iterated by species_ring_slots. -/
def jewellery_slots : List EquipmentType :=
  [EQ_LEFT_RING, EQ_RIGHT_RING, EQ_AMULET,
   EQ_RING_ONE, EQ_RING_TWO, EQ_RING_THREE, EQ_RING_FOUR, EQ_RING_FIVE,
   EQ_RING_SIX, EQ_RING_SEVEN, EQ_RING_EIGHT, EQ_RING_AMULET]

/-- species.cc: species_arm_count. -/
def species_arm_count (species : SpeciesType) : Nat :=
  if species = SP_OCTOPODE then 8 else 2

/-- species.cc: species_is_draconian reads the SPF_DRACONIAN flag of the data
table (species-data.h, outside this fragment); the flag is modelled as
holding exactly for the draconian constructors. -/
def species_is_draconian (species : SpeciesType) : Bool :=
  match species with
  | SP_RED_DRACONIAN | SP_WHITE_DRACONIAN | SP_GREEN_DRACONIAN
  | SP_YELLOW_DRACONIAN | SP_GREY_DRACONIAN | SP_BLACK_DRACONIAN
  | SP_PURPLE_DRACONIAN | SP_PALE_DRACONIAN | SP_MOTTLED_DRACONIAN
  | SP_BASE_DRACONIAN => true
  | _ => false

/-- species.cc: species_bans_eq. -/
def species_bans_eq (species : SpeciesType) (eq : EquipmentType) : Bool :=
  let arms := species_arm_count species
  match eq with
  | EQ_LEFT_RING | EQ_RIGHT_RING => decide (2 < arms)
  | EQ_RING_ONE | EQ_RING_TWO | EQ_RING_THREE | EQ_RING_FOUR
  | EQ_RING_FIVE | EQ_RING_SIX | EQ_RING_SEVEN | EQ_RING_EIGHT =>
      decide (arms ≤ 2)
  -- not banned by any species
  | EQ_AMULET | EQ_RING_AMULET
  -- not handled here:
  | EQ_WEAPON | EQ_STAFF | EQ_RINGS | EQ_RINGS_PLUS | EQ_ALL_ARMOUR => false
  | _ =>
      -- remaining should be armour only
      if species = SP_OCTOPODE ∧ eq ≠ EQ_HELMET ∧ eq ≠ EQ_SHIELD then true
      else if species_is_draconian species = true ∧ eq = EQ_BODY_ARMOUR then
        true
      else false

/-- species.cc: species_sacrificial_arm. -/
def species_sacrificial_arm (species : SpeciesType) : EquipmentType :=
  if species_arm_count species = 2 then EQ_LEFT_RING else EQ_RING_EIGHT

/-- species.cc: species_ring_slots (the loop over the jewellery range with
its push_back condition becomes a filter). -/
def species_ring_slots (species : SpeciesType) (missing_hand : Bool) :
    List EquipmentType :=
  let missing := if missing_hand then species_sacrificial_arm species
                 else EQ_NONE
  jewellery_slots.filter (fun eq =>
    decide (eq ≠ EQ_AMULET) && decide (eq ≠ EQ_RING_AMULET)
      && decide (eq ≠ missing) && !(species_bans_eq species eq))

/-- species.cc: the shout-verb tables (three-element string arrays). -/
def shout_verbs : List String := ["shout", "yell", "scream"]

def felid_shout_verbs : List String := ["meow", "yowl", "caterwaul"]

def frog_shout_verbs : List String := ["croak", "ribbit", "bellow"]

def dog_shout_verbs : List String := ["bark", "howl", "screech"]

/-- species.cc line 326: the clamp of the screaminess argument.  The C++
computes min(screaminess, static_cast(int)(sizeof(shout_verbs) - 1)):
sizeof of the array is its byte size, three times the byte size of a
std::string (a platform constant, kept as the parameter sizeof_string),
not the element count 3. -/
def clamped_screaminess (sizeof_string : Nat) (screaminess : Int) : Int :=
  max (min screaminess ((3 * sizeof_string : Nat) - 1 : Int)) 0

/-- Modelled from the spec: random.h/random.cc (coinflip) are not part of
this fragment.  The random source is an explicit stream of booleans plus a
position; coinflip returns the next boolean and advances the position. -/
structure Rng where
  flips : Nat → Bool
  pos : Nat

/-- Modelled from the spec: coinflip draws the next boolean from the RNG
state. -/
def coinflip (rng : Rng) : Bool × Rng :=
  (rng.flips rng.pos, ⟨rng.flips, rng.pos + 1⟩)

def no_verb : String := ""

/-- species.cc: species_shout_verb.  The global RNG is passed explicitly;
coinflip is consulted only when the C++ short-circuit reaches it (gnoll,
clamped screaminess 0, directed).  Array indexing becomes List.getD on the
clamped index. -/
def species_shout_verb (sizeof_string : Nat) (sp : SpeciesType)
    (screaminess : Int) (directed : Bool) (rng : Rng) : String × Rng :=
  let i := clamped_screaminess sizeof_string screaminess
  match sp with
  | SP_GNOLL =>
      if i = 0 ∧ directed = true then
        let fr := coinflip rng
        if fr.1 = true then ("growl", fr.2)
        else (dog_shout_verbs.getD i.toNat no_verb, fr.2)
      else (dog_shout_verbs.getD i.toNat no_verb, rng)
  | SP_BARACHI => (frog_shout_verbs.getD i.toNat no_verb, rng)
  | SP_FELID =>
      if i = 0 ∧ directed = true then ("hiss", rng) -- hiss at, not meow at
      else (felid_shout_verbs.getD i.toNat no_verb, rng)
  | _ => (shout_verbs.getD i.toNat no_verb, rng)

/-- Modelled from the spec: the level_up_mutation entries of the species_def
struct (species-data.h is outside this fragment): a mutation, the number of
levels granted, and the experience level at which they are granted.
Mutation indices (mutation_type) are plain naturals. -/
structure LevelUpMut where
  mut_idx : Nat
  mut_level : Nat
  xp_level : Nat
  deriving DecidableEq, Repr

/-- species.cc: the loop of species_mutation_level, with the running total
as an accumulator (total starts at 0; after adding a matching entry's
levels, the entry's xp_level is returned as soon as the total reaches
mut_level). -/
def species_mutation_level_go (mut_idx mut_level : Nat) :
    List LevelUpMut → Nat → Nat
  | [], _ => 0
  | lum :: lums, total =>
      if lum.mut_idx = mut_idx then
        (if mut_level ≤ total + lum.mut_level then lum.xp_level
         else species_mutation_level_go mut_idx mut_level lums
                (total + lum.mut_level))
      else species_mutation_level_go mut_idx mut_level lums total

/-- species.cc: species_mutation_level, over the level_up_mutations list of
the species (the data table is a parameter). -/
def species_mutation_level (lums : List LevelUpMut) (mut_idx : Nat)
    (mut_level : Nat) : Nat :=
  species_mutation_level_go mut_idx mut_level lums 0

/-- The cumulative scheduled levels for a mutation over the first n entries
of a level-up mutation list. -/
def cum_levels (lums : List LevelUpMut) (mut_idx n : Nat) : Nat :=
  (((lums.take n).filter (fun l => l.mut_idx == mut_idx)).map
    (fun l => l.mut_level)).sum

/-- A demonstration schedule used by witnesses: one entry granting one
level of mutation 5 at experience level 3. -/
def lums_demo : List LevelUpMut := [⟨5, 1, 3⟩]

/-- species.h: the kinds of species name (plain, adjectival, genus). -/
inductive SpeciesNameType
  | SPNAME_PLAIN
  | SPNAME_ADJ
  | SPNAME_GENUS
  deriving DecidableEq, Repr

open SpeciesNameType

/-- Modelled from the spec: species_def, the static descriptor struct of the
data table (species-data.h is outside this fragment), restricted to the
fields the functions under verification read: the display names (the genus
and adjectival names are nullable char pointers, hence Option) and the
level-up mutation schedule. -/
structure SpeciesDef where
  name : String
  genus_name : Option String
  adj_name : Option String
  level_up_mutations : List LevelUpMut

/-- species.cc: species_name.  get_species_def becomes application of the
data table sd. -/
def species_name (sd : SpeciesType → SpeciesDef) (speci : SpeciesType)
    (spname_type : SpeciesNameType) : String :=
  let def0 := sd speci
  if spname_type = SPNAME_GENUS ∧ def0.genus_name.isSome = true then
    def0.genus_name.getD def0.name
  else if spname_type = SPNAME_ADJ ∧ def0.adj_name.isSome = true then
    def0.adj_name.getD def0.name
  else def0.name

/-- All species below NUM_SPECIES, in enum order; the range scanned by
str_to_species. -/
def all_species : List SpeciesType :=
  [SP_HUMAN, SP_DEEP_ELF, SP_HILL_ORC, SP_NAGA, SP_TENGU, SP_FELID,
   SP_MUMMY, SP_OCTOPODE, SP_GNOLL, SP_BARACHI, SP_DEMIGOD, SP_DEMONSPAWN,
   SP_RED_DRACONIAN, SP_WHITE_DRACONIAN, SP_GREEN_DRACONIAN,
   SP_YELLOW_DRACONIAN, SP_GREY_DRACONIAN, SP_BLACK_DRACONIAN,
   SP_PURPLE_DRACONIAN, SP_PALE_DRACONIAN, SP_MOTTLED_DRACONIAN,
   SP_BASE_DRACONIAN]

/-- species.cc: str_to_species -- a case-sensitive scan of the species in
enum order, comparing the supplied string against each plain species name;
SP_UNKNOWN (returned for the empty string and for no match) is none. -/
def str_to_species (sd : SpeciesType → SpeciesDef) (species : String) :
    Option SpeciesType :=
  if species.isEmpty = true then none
  else all_species.find?
    (fun sp => species == species_name sd sp SPNAME_PLAIN)

/-- The plain names of the demonstration data table: distinct and nonempty
(the real table is static content, outside this fragment). -/
def demo_name : SpeciesType → String
  | SP_HUMAN => "Human"
  | SP_DEEP_ELF => "Deep Elf"
  | SP_HILL_ORC => "Hill Orc"
  | SP_NAGA => "Naga"
  | SP_TENGU => "Tengu"
  | SP_FELID => "Felid"
  | SP_MUMMY => "Mummy"
  | SP_OCTOPODE => "Octopode"
  | SP_GNOLL => "Gnoll"
  | SP_BARACHI => "Barachi"
  | SP_DEMIGOD => "Demigod"
  | SP_DEMONSPAWN => "Demonspawn"
  | SP_RED_DRACONIAN => "Red Draconian"
  | SP_WHITE_DRACONIAN => "White Draconian"
  | SP_GREEN_DRACONIAN => "Green Draconian"
  | SP_YELLOW_DRACONIAN => "Yellow Draconian"
  | SP_GREY_DRACONIAN => "Grey Draconian"
  | SP_BLACK_DRACONIAN => "Black Draconian"
  | SP_PURPLE_DRACONIAN => "Purple Draconian"
  | SP_PALE_DRACONIAN => "Pale Draconian"
  | SP_MOTTLED_DRACONIAN => "Mottled Draconian"
  | SP_BASE_DRACONIAN => "Draconian"

/-- A demonstration data table used by witnesses: demo names, no genus or
adjectival overrides, and the demonstration schedule on SP_FELID. -/
def sd_demo (sp : SpeciesType) : SpeciesDef :=
  ⟨demo_name sp, none, none, if sp = SP_FELID then lums_demo else []⟩

/-- Modelled from the spec: the slice of the global player object (you, of
player.h, outside this fragment) that change_species_to manipulates.
Mutation levels are the uint8_t counters you.mutation / you.innate_mutation,
kept as naturals (far from the wrap bound in any reachable state); skill
points are kept exact, the spec describing the aptitude factor as a
training-speed multiplier used to rescale them; equipment slots hold the
inventory index or -1 for empty, with the melded bitset alongside. -/
structure PlayerState where
  species : SpeciesType
  chr_species_name : String
  experience_level : Nat
  skill_points : Nat → Rat
  mutation : Nat → Nat
  innate_mutation : Nat → Nat
  equip : EquipmentType → Int
  melded : EquipmentType → Bool

/-- species.cc: the loop body of give_basic_mutations -- a direct
assignment (not perma_mutate) of both the mutation and the innate level
for entries granted at xp level 1. -/
def basic_step (st : PlayerState) (lum : LevelUpMut) : PlayerState :=
  if lum.xp_level = 1 then
    {st with
      mutation := fun i =>
        if i = lum.mut_idx then lum.mut_level else st.mutation i,
      innate_mutation := fun i =>
        if i = lum.mut_idx then lum.mut_level else st.innate_mutation i}
  else st

/-- species.cc: give_basic_mutations. -/
def give_basic_mutations (sd : SpeciesType → SpeciesDef)
    (species : SpeciesType) (st : PlayerState) : PlayerState :=
  ((sd species).level_up_mutations).foldl basic_step st

/-- Modelled from the spec: perma_mutate (mutation.cc) is outside this
fragment.  Per the spec glossary an innate mutation is a level granted
automatically by species/level; granting mut_level such levels raises both
the total and the innate level of the mutation by mut_level. -/
def perma_mutate (m lvl : Nat) (st : PlayerState) : PlayerState :=
  {st with
    mutation := fun i => if i = m then st.mutation i + lvl else st.mutation i,
    innate_mutation := fun i =>
      if i = m then st.innate_mutation i + lvl else st.innate_mutation i}

/-- species.cc: the loop body of give_level_mutations (the growth message
is display only). -/
def level_step (xl : Nat) (st : PlayerState) (lum : LevelUpMut) : PlayerState :=
  if lum.xp_level = xl then perma_mutate lum.mut_idx lum.mut_level st else st

/-- species.cc: give_level_mutations. -/
def give_level_mutations (sd : SpeciesType → SpeciesDef)
    (species : SpeciesType) (xp_level : Nat) (st : PlayerState) : PlayerState :=
  ((sd species).level_up_mutations).foldl (level_step xp_level) st

/-- species.cc change_species_to lines 646-647: the loop giving level
mutations for experience levels 2 up to the current one. -/
def give_level_mutations_upto (sd : SpeciesType → SpeciesDef)
    (species : SpeciesType) (xl : Nat) (st : PlayerState) : PlayerState :=
  (List.range' 2 (xl - 1)).foldl
    (fun s n => give_level_mutations sd species n s) st

/-- Modelled from the spec: an entry of you.demonic_traits (player.h,
outside this fragment): a mutation and the level at which it is gained. -/
structure DemonicTrait where
  mutation : Nat
  level_gained : Nat

/-- species.cc change_species_to lines 661-670: the demonspawn loop body --
traits gained at a level above the current experience level are skipped,
the others raise the mutation and its innate level by one. -/
def demonic_trait_step (xl : Nat) (st : PlayerState) (t : DemonicTrait) :
    PlayerState :=
  if xl < t.level_gained then st
  else
    {st with
      mutation := fun i =>
        if i = t.mutation then st.mutation i + 1 else st.mutation i,
      innate_mutation := fun i =>
        if i = t.mutation then st.innate_mutation i + 1
        else st.innate_mutation i}

/-- species.cc: _swap_equip -- swaps the contents and melded flags of two
slots. -/
def swap_equip (a b : EquipmentType) (st : PlayerState) : PlayerState :=
  {st with
    equip := fun j =>
      if j = a then st.equip b else if j = b then st.equip a else st.equip j,
    melded := fun j =>
      if j = a then st.melded b
      else if j = b then st.melded a else st.melded j}

/-- Modelled from the spec: you_can_wear (player.cc) is outside this
fragment.  The species_bans_eq doc comment says that function is guaranteed
to handle species ring slots, with the rest of the division of labor in
player.cc; the MB_FALSE case of you_can_wear for the freshly changed player
is modelled as exactly the species-level slot ban. -/
def you_can_wear_mb_false (sp : SpeciesType) (eq : EquipmentType) : Bool :=
  species_bans_eq sp eq

/-- species.cc change_species_to lines 685-695: the fall-away loop body --
a non-empty slot the new species cannot wear is emptied and unmelded
(the message is display only). -/
def fall_step (sp : SpeciesType) (st : PlayerState) (eq : EquipmentType) :
    PlayerState :=
  if you_can_wear_mb_false sp eq = true ∧ st.equip eq ≠ -1 then
    {st with
      equip := fun j => if j = eq then -1 else st.equip j,
      melded := fun j => if j = eq then false else st.melded j}
  else st

/-- species.cc: change_species_to.  The data table sd, the aptitude-factor
table apt (species_apt_factor, skills.cc, modelled from the spec as the
per-species training-speed multiplier) and the demonic traits rolled by
roll_demonspawn_mutations (mutation.cc) are parameters.  fixup_skills,
calc_hp, calc_mp, update_vision_range and the redraw calls touch no
modelled state.  Loops that write one array cell per index become
pointwise functions; the prev_muts snapshot is the function captured
before the innate arrays are rebuilt. -/
def change_species_to (sd : SpeciesType → SpeciesDef)
    (apt : Nat → SpeciesType → Rat) (dtraits : List DemonicTrait)
    (sp : SpeciesType) (st : PlayerState) : PlayerState :=
  -- Re-scale skill-points: the one-argument species_apt_factor reads the
  -- still unchanged you.species.
  let st1 := {st with skill_points :=
    (fun sk => st.skill_points sk * (apt sk sp / apt sk st.species))}
  let old_sp := st1.species
  let st2 := {st1 with species := sp,
                       chr_species_name := species_name sd sp SPNAME_PLAIN}
  -- remove all innate mutations, recording prev_muts
  let prev_muts : Nat → Nat := fun i =>
    if 0 < st2.innate_mutation i then st2.mutation i - st2.innate_mutation i
    else st2.mutation i
  let st3 := {st2 with
    mutation := prev_muts,
    innate_mutation :=
      (fun i => if 0 < st2.innate_mutation i then 0
                else st2.innate_mutation i)}
  -- add the appropriate innate mutations for the new species and xl
  let st4 := give_basic_mutations sd sp st3
  let st5 := give_level_mutations_upto sd sp st4.experience_level st4
  -- previous non-innate mutations override innate ones (see the TODO in
  -- the source)
  let st6 := {st5 with innate_mutation :=
    (fun i => if st5.innate_mutation i < prev_muts i then 0
              else st5.innate_mutation i - prev_muts i)}
  let st7 := if sp = SP_DEMONSPAWN then
               dtraits.foldl (demonic_trait_step st6.experience_level) st6
             else st6
  -- update_vision_range: no modelled state
  let st8 := if decide (old_sp = SP_OCTOPODE) ≠ decide (sp = SP_OCTOPODE)
             then swap_equip EQ_RIGHT_RING EQ_RING_TWO
                    (swap_equip EQ_LEFT_RING EQ_RING_ONE st7)
             else st7
  -- items the new species cannot wear fall away
  let st9 := player_equip_slots.foldl (fall_step sp) st8
  st9

/-- The innate level the give_basic_mutations pass leaves for mutation i,
starting from value v: the mut_level of the last xp-level-1 entry for i
(assignment overwrites), or v when there is none. -/
def basicF (lums : List LevelUpMut) (v i : Nat) : Nat :=
  lums.foldl
    (fun w l => if l.xp_level = 1 ∧ l.mut_idx = i then l.mut_level else w) v

/-- Total levels granted for mutation i by the entries at exactly xp level
n. -/
def per_level_sum (n i : Nat) : List LevelUpMut → Nat
  | [] => 0
  | l :: ls =>
      (if l.xp_level = n ∧ l.mut_idx = i then l.mut_level else 0)
        + per_level_sum n i ls

/-- The innate level the species' level-up schedule grants for mutation i
up to experience level xl: the level-1 grant plus the grants at levels 2
through xl. -/
def scheduled_innate (lums : List LevelUpMut) (xl i : Nat) : Nat :=
  basicF lums 0 i
    + ((List.range' 2 (xl - 1)).map (fun n => per_level_sum n i lums)).sum

/-- A demonstration player used by counterexamples and witnesses: a human
at experience level 1 with one acquired (non-innate) level of mutation 0,
nothing worn, nothing melded, no skill points. -/
def st_demo : PlayerState :=
  ⟨SP_HUMAN, "Human", 1, fun _ => 0, fun i => if i = 0 then 1 else 0,
   fun _ => 0, fun _ => -1, fun _ => false⟩

/-- A demonstration schedule granting one level of mutation 0 at xp level
1, as a data table on SP_FELID. -/
def sd_basic_demo (sp : SpeciesType) : SpeciesDef :=
  ⟨demo_name sp, none, none,
   if sp = SP_FELID then [⟨0, 1, 1⟩] else []⟩

/-- A flat demonstration aptitude table. -/
def apt_demo : Nat → SpeciesType → Rat := fun _ _ => 1

/-- Claim C5: species_bans_eq answers ring wearability from the arm count:
for every species the EQ_LEFT_RING and EQ_RIGHT_RING slots are banned
exactly when the species has more than two arms, and the EQ_RING_ONE
through EQ_RING_EIGHT slots are banned exactly when the species has at most
two arms. -/
theorem species_bans_eq_rings_by_arm_count :
    ∀ sp : SpeciesType,
      ((species_bans_eq sp EQ_LEFT_RING = true ↔ 2 < species_arm_count sp)
        ∧ (species_bans_eq sp EQ_RIGHT_RING = true ↔ 2 < species_arm_count sp))
      ∧ ∀ eq ∈ [EQ_RING_ONE, EQ_RING_TWO, EQ_RING_THREE, EQ_RING_FOUR,
                EQ_RING_FIVE, EQ_RING_SIX, EQ_RING_SEVEN, EQ_RING_EIGHT],
          (species_bans_eq sp eq = true ↔ species_arm_count sp ≤ 2) := by
  decide

/-- Claim C8 (code bug): the clamp in species_shout_verb clamps against
sizeof(shout_verbs) - 1, the byte size of the three-string array minus one,
not the element count minus one.  For any byte size of std::string of at
least 2 (every real implementation is far larger), the screaminess value 3
survives the clamp unchanged, so the index used to read the three-element
verb tables lies outside the valid range [0, 2]. -/
theorem clamped_screaminess_out_of_range (sizeof_string : Nat)
    (h : 2 ≤ sizeof_string) :
    clamped_screaminess sizeof_string 3 = 3
      ∧ ¬(clamped_screaminess sizeof_string 3 ≤ 2) := by
  have h3 : (3 : Int) ≤ ((3 * sizeof_string : Nat) - 1 : Int) := by
    have : (2 : Nat) ≤ sizeof_string := h
    omega
  constructor
  · unfold clamped_screaminess
    omega
  · unfold clamped_screaminess
    omega

/-- Witness for clamped_screaminess_out_of_range, at the byte size of
libstdc++'s std::string. -/
theorem clamped_screaminess_out_of_range_witness :
    clamped_screaminess 32 3 = 3 ∧ ¬(clamped_screaminess 32 3 ≤ 2) :=
  clamped_screaminess_out_of_range 32 (by decide)

/-- Claim C9: for every species and missing_hand flag, species_ring_slots
contains only slots not banned by species_bans_eq, excludes both amulet
slots, omits exactly the sacrificial arm when missing_hand is set, and has
length arm count (arm count minus one when missing_hand). -/
theorem species_ring_slots_spec :
    ∀ (sp : SpeciesType) (mh : Bool),
      (∀ eq ∈ species_ring_slots sp mh, species_bans_eq sp eq = false)
      ∧ EQ_AMULET ∉ species_ring_slots sp mh
      ∧ EQ_RING_AMULET ∉ species_ring_slots sp mh
      ∧ (species_ring_slots sp mh).length
          = (if mh then species_arm_count sp - 1 else species_arm_count sp)
      ∧ (mh = true → species_sacrificial_arm sp ∉ species_ring_slots sp mh) := by
  decide

/-- Claim C10: no species bans the amulet slots: species_bans_eq returns
false for EQ_AMULET and EQ_RING_AMULET for every species. -/
theorem species_bans_eq_amulets_false :
    ∀ sp : SpeciesType,
      species_bans_eq sp EQ_AMULET = false
        ∧ species_bans_eq sp EQ_RING_AMULET = false := by
  decide

theorem cum_levels_nil (mut_idx n : Nat) : cum_levels [] mut_idx n = 0 := by
  simp [cum_levels]

theorem cum_levels_cons (l : LevelUpMut) (ls : List LevelUpMut)
    (mut_idx n : Nat) :
    cum_levels (l :: ls) mut_idx (n + 1)
      = (if l.mut_idx = mut_idx then l.mut_level else 0) + cum_levels ls mut_idx n := by
  by_cases h : l.mut_idx = mut_idx <;>
    simp [cum_levels, List.take_succ_cons, List.filter_cons, h]

/-- Characterization of the species_mutation_level loop: starting from a
running total t below the threshold, it either returns 0 with the whole
remaining cumulative sum staying below the threshold, or returns the
xp_level of the first entry at which the cumulative sum reaches it. -/
theorem species_mutation_level_go_char (mut_idx ml : Nat)
    (lums : List LevelUpMut) :
    ∀ t : Nat, t < ml →
      (species_mutation_level_go mut_idx ml lums t = 0
          ∧ t + cum_levels lums mut_idx lums.length < ml)
      ∨ ∃ n, ∃ hn : n < lums.length,
          (lums.get ⟨n, hn⟩).mut_idx = mut_idx
          ∧ t + cum_levels lums mut_idx n < ml
          ∧ ml ≤ t + cum_levels lums mut_idx (n + 1)
          ∧ species_mutation_level_go mut_idx ml lums t
              = (lums.get ⟨n, hn⟩).xp_level := by
  induction lums with
  | nil =>
      intro t ht
      exact Or.inl ⟨rfl, by simpa [cum_levels_nil] using ht⟩
  | cons l ls ih =>
      intro t ht
      by_cases hm : l.mut_idx = mut_idx
      · by_cases hle : ml ≤ t + l.mut_level
        · refine Or.inr ⟨0, by simp, ?_, ?_, ?_, ?_⟩
          · simpa using hm
          · simpa [cum_levels] using ht
          · have : cum_levels (l :: ls) mut_idx 1
                = l.mut_level + cum_levels ls mut_idx 0 := cum_levels_cons l ls mut_idx 0 ▸ by simp [hm]
            simp [cum_levels_cons, hm, cum_levels]
            omega
          · simp [species_mutation_level_go, hm, hle]
        · have ht' : t + l.mut_level < ml := by omega
          rcases ih (t + l.mut_level) ht' with ⟨h0, hcum⟩ | ⟨n, hn, hmut, hlt, hge, hres⟩
          · refine Or.inl ⟨?_, ?_⟩
            · simpa [species_mutation_level_go, hm, hle] using h0
            · have := cum_levels_cons l ls mut_idx ls.length
              simp only [List.length_cons, this, hm, if_pos]
              omega
          · refine Or.inr ⟨n + 1, by simpa using Nat.succ_lt_succ hn, ?_, ?_, ?_, ?_⟩
            · simpa using hmut
            · have := cum_levels_cons l ls mut_idx n
              simp only [this, hm, if_pos]
              omega
            · have := cum_levels_cons l ls mut_idx (n + 1)
              simp only [this, hm, if_pos]
              omega
            · simpa [species_mutation_level_go, hm, hle] using hres
      · rcases ih t ht with ⟨h0, hcum⟩ | ⟨n, hn, hmut, hlt, hge, hres⟩
        · refine Or.inl ⟨?_, ?_⟩
          · simpa [species_mutation_level_go, hm] using h0
          · have hc := cum_levels_cons l ls mut_idx ls.length
            rw [if_neg hm] at hc
            simp only [List.length_cons, hc]
            omega
        · refine Or.inr ⟨n + 1, by simpa using Nat.succ_lt_succ hn, ?_, ?_, ?_, ?_⟩
          · simpa using hmut
          · have hc := cum_levels_cons l ls mut_idx n
            rw [if_neg hm] at hc
            simp only [hc]
            omega
          · have hc := cum_levels_cons l ls mut_idx (n + 1)
            rw [if_neg hm] at hc
            simp only [hc]
            omega
          · simpa [species_mutation_level_go, hm] using hres

/-- Claim C4: species_mutation_level returns the experience level at which
the species' cumulative scheduled levels for the mutation first reach
mut_level, scanning the level-up mutation list in order (the returned
xp_level belongs to the first entry whose running cumulative sum reaches
the threshold), and returns 0 when the schedule never accumulates the
mutation to that level. -/
theorem species_mutation_level_first_reach (lums : List LevelUpMut)
    (mut_idx ml : Nat) (h : 1 ≤ ml) :
    (species_mutation_level lums mut_idx ml = 0
        ∧ cum_levels lums mut_idx lums.length < ml)
    ∨ ∃ n, ∃ hn : n < lums.length,
        (lums.get ⟨n, hn⟩).mut_idx = mut_idx
        ∧ cum_levels lums mut_idx n < ml
        ∧ ml ≤ cum_levels lums mut_idx (n + 1)
        ∧ species_mutation_level lums mut_idx ml
            = (lums.get ⟨n, hn⟩).xp_level := by
  have hchar := species_mutation_level_go_char mut_idx ml lums 0 (by omega)
  simpa [species_mutation_level] using hchar

/-- Witness for species_mutation_level_first_reach on the demonstration
schedule: the threshold 1 is first reached at its single entry. -/
theorem species_mutation_level_first_reach_witness :
    1 ≤ 1
    ∧ ((species_mutation_level lums_demo 5 1 = 0
          ∧ cum_levels lums_demo 5 lums_demo.length < 1)
      ∨ ∃ n, ∃ hn : n < lums_demo.length,
          (lums_demo.get ⟨n, hn⟩).mut_idx = 5
          ∧ cum_levels lums_demo 5 n < 1
          ∧ 1 ≤ cum_levels lums_demo 5 (n + 1)
          ∧ species_mutation_level lums_demo 5 1
              = (lums_demo.get ⟨n, hn⟩).xp_level) :=
  ⟨by decide, species_mutation_level_first_reach lums_demo 5 1 (by decide)⟩

theorem mem_all_species : ∀ sp : SpeciesType, sp ∈ all_species := by
  decide

/-- find? returns the unique element satisfying the predicate, when one is
a member of the list. -/
theorem find?_eq_some_of_unique {α : Type} (p : α → Bool) (x : α) :
    ∀ l : List α, x ∈ l → p x = true → (∀ y, p y = true → y = x) →
      l.find? p = some x := by
  intro l
  induction l with
  | nil =>
      intro hmem _ _
      exact absurd hmem (List.not_mem_nil x)
  | cons a as ih =>
      intro hmem hp huniq
      by_cases ha : p a = true
      · rw [List.find?_cons_of_pos _ ha, huniq a ha]
      · have hx : x ∈ as := by
          rcases List.mem_cons.mp hmem with hax | has
          · exact absurd (hax ▸ hp) ha
          · exact has
        rw [List.find?_cons_of_neg _ (by simpa using ha)]
        exact ih hx hp huniq

/-- Claim C7: species names round-trip through the name queries: for every
species below NUM_SPECIES, str_to_species applied to the plain
species_name of that species returns that species.  The data table is a
parameter; the round trip needs its plain names to be nonempty and
pairwise distinct, which the real static content table satisfies. -/
theorem str_to_species_species_name (sd : SpeciesType → SpeciesDef)
    (hne : ∀ t : SpeciesType, (species_name sd t SPNAME_PLAIN).isEmpty = false)
    (hinj : ∀ a b : SpeciesType,
      species_name sd a SPNAME_PLAIN = species_name sd b SPNAME_PLAIN → a = b)
    (sp : SpeciesType) :
    str_to_species sd (species_name sd sp SPNAME_PLAIN) = some sp := by
  unfold str_to_species
  rw [if_neg (by simp [hne sp])]
  apply find?_eq_some_of_unique _ sp _ (mem_all_species sp) (by simp)
  intro y hy
  exact (hinj sp y (by simpa using hy)).symm

/-- Witness for str_to_species_species_name on the demonstration table. -/
theorem str_to_species_species_name_witness :
    str_to_species sd_demo (species_name sd_demo SP_FELID SPNAME_PLAIN)
      = some SP_FELID :=
  str_to_species_species_name sd_demo (by decide) (by decide) SP_FELID

/-- Claim C6 counterexample: species_shout_verb, a species query other than
change_species_to, is not a pure stateless lookup: on a directed quiet
gnoll shout, two calls with equal arguments return different results
depending on the global RNG state (which the call also advances). -/
theorem species_shout_verb_not_pure :
    (species_shout_verb 32 SP_GNOLL 0 true ⟨fun _ => true, 0⟩).1
      ≠ (species_shout_verb 32 SP_GNOLL 0 true ⟨fun _ => false, 0⟩).1 := by
  decide

/-- Claim C6 as amended: every species query of this module other than
change_species_to, the random pickers and the state writers is a pure
function of its arguments; in particular species_shout_verb returns a
result independent of the RNG and leaves the RNG unchanged whenever it is
not the coinflip case (gnoll species, clamped screaminess 0, directed). -/
theorem species_shout_verb_pure_outside_gnoll_coinflip
    (sizeof_string : Nat) (sp : SpeciesType) (screaminess : Int)
    (directed : Bool) (rng rng2 : Rng)
    (h : ¬(sp = SP_GNOLL
           ∧ clamped_screaminess sizeof_string screaminess = 0
           ∧ directed = true)) :
    (species_shout_verb sizeof_string sp screaminess directed rng).1
      = (species_shout_verb sizeof_string sp screaminess directed rng2).1
    ∧ (species_shout_verb sizeof_string sp screaminess directed rng).2
        = rng := by
  cases sp
  case SP_GNOLL =>
    have hc : ¬(clamped_screaminess sizeof_string screaminess = 0
        ∧ directed = true) := fun hcc => h ⟨rfl, hcc⟩
    simp only [species_shout_verb]
    exact ⟨by rw [if_neg hc, if_neg hc], by rw [if_neg hc]⟩
  all_goals
    first
    | exact ⟨rfl, rfl⟩
    | (simp only [species_shout_verb]; split <;> exact ⟨rfl, rfl⟩)

/-- Witness for species_shout_verb_pure_outside_gnoll_coinflip: a directed
quiet felid shout hisses regardless of the RNG, without advancing it. -/
theorem species_shout_verb_pure_witness :
    (species_shout_verb 32 SP_FELID 0 true ⟨fun _ => true, 0⟩).1
      = (species_shout_verb 32 SP_FELID 0 true ⟨fun _ => false, 5⟩).1
    ∧ (species_shout_verb 32 SP_FELID 0 true ⟨fun _ => true, 0⟩).2
        = ⟨fun _ => true, 0⟩ :=
  species_shout_verb_pure_outside_gnoll_coinflip 32 SP_FELID 0 true
    ⟨fun _ => true, 0⟩ ⟨fun _ => false, 5⟩ (by decide)

theorem ite_skill_points (c : Prop) [Decidable c] (a b : PlayerState) :
    (if c then a else b).skill_points
      = if c then a.skill_points else b.skill_points := by
  split <;> rfl

theorem ite_mutation (c : Prop) [Decidable c] (a b : PlayerState) :
    (if c then a else b).mutation
      = if c then a.mutation else b.mutation := by
  split <;> rfl

theorem ite_innate_mutation (c : Prop) [Decidable c] (a b : PlayerState) :
    (if c then a else b).innate_mutation
      = if c then a.innate_mutation else b.innate_mutation := by
  split <;> rfl

theorem foldl_basic_skill_points : ∀ (lums : List LevelUpMut)
    (st : PlayerState),
    (List.foldl basic_step st lums).skill_points = st.skill_points := by
  intro lums
  induction lums with
  | nil => intro st; rfl
  | cons l ls ih =>
      intro st
      rw [List.foldl_cons, ih]
      unfold basic_step
      split <;> rfl

theorem foldl_basic_equip : ∀ (lums : List LevelUpMut) (st : PlayerState),
    (List.foldl basic_step st lums).equip = st.equip := by
  intro lums
  induction lums with
  | nil => intro st; rfl
  | cons l ls ih =>
      intro st
      rw [List.foldl_cons, ih]
      unfold basic_step
      split <;> rfl

theorem foldl_basic_melded : ∀ (lums : List LevelUpMut) (st : PlayerState),
    (List.foldl basic_step st lums).melded = st.melded := by
  intro lums
  induction lums with
  | nil => intro st; rfl
  | cons l ls ih =>
      intro st
      rw [List.foldl_cons, ih]
      unfold basic_step
      split <;> rfl

theorem foldl_basic_experience_level : ∀ (lums : List LevelUpMut)
    (st : PlayerState),
    (List.foldl basic_step st lums).experience_level
      = st.experience_level := by
  intro lums
  induction lums with
  | nil => intro st; rfl
  | cons l ls ih =>
      intro st
      rw [List.foldl_cons, ih]
      unfold basic_step
      split <;> rfl

theorem give_basic_mutations_skill_points (sd : SpeciesType → SpeciesDef)
    (species : SpeciesType) (st : PlayerState) :
    (give_basic_mutations sd species st).skill_points = st.skill_points :=
  foldl_basic_skill_points _ _

theorem give_basic_mutations_equip (sd : SpeciesType → SpeciesDef)
    (species : SpeciesType) (st : PlayerState) :
    (give_basic_mutations sd species st).equip = st.equip :=
  foldl_basic_equip _ _

theorem give_basic_mutations_melded (sd : SpeciesType → SpeciesDef)
    (species : SpeciesType) (st : PlayerState) :
    (give_basic_mutations sd species st).melded = st.melded :=
  foldl_basic_melded _ _

theorem give_basic_mutations_experience_level (sd : SpeciesType → SpeciesDef)
    (species : SpeciesType) (st : PlayerState) :
    (give_basic_mutations sd species st).experience_level
      = st.experience_level :=
  foldl_basic_experience_level _ _

theorem perma_mutate_frame (m lvl : Nat) (st : PlayerState) :
    (perma_mutate m lvl st).skill_points = st.skill_points
    ∧ (perma_mutate m lvl st).equip = st.equip
    ∧ (perma_mutate m lvl st).melded = st.melded
    ∧ (perma_mutate m lvl st).experience_level = st.experience_level :=
  ⟨rfl, rfl, rfl, rfl⟩

theorem foldl_level_skill_points (n : Nat) : ∀ (lums : List LevelUpMut)
    (st : PlayerState),
    (List.foldl (level_step n) st lums).skill_points = st.skill_points := by
  intro lums
  induction lums with
  | nil => intro st; rfl
  | cons l ls ih =>
      intro st
      rw [List.foldl_cons, ih]
      unfold level_step perma_mutate
      split <;> rfl

theorem foldl_level_equip (n : Nat) : ∀ (lums : List LevelUpMut)
    (st : PlayerState),
    (List.foldl (level_step n) st lums).equip = st.equip := by
  intro lums
  induction lums with
  | nil => intro st; rfl
  | cons l ls ih =>
      intro st
      rw [List.foldl_cons, ih]
      unfold level_step perma_mutate
      split <;> rfl

theorem foldl_level_melded (n : Nat) : ∀ (lums : List LevelUpMut)
    (st : PlayerState),
    (List.foldl (level_step n) st lums).melded = st.melded := by
  intro lums
  induction lums with
  | nil => intro st; rfl
  | cons l ls ih =>
      intro st
      rw [List.foldl_cons, ih]
      unfold level_step perma_mutate
      split <;> rfl

theorem give_level_mutations_upto_skill_points (sd : SpeciesType → SpeciesDef)
    (species : SpeciesType) (xl : Nat) (st : PlayerState) :
    (give_level_mutations_upto sd species xl st).skill_points
      = st.skill_points := by
  unfold give_level_mutations_upto
  generalize List.range' 2 (xl - 1) = L
  induction L generalizing st with
  | nil => rfl
  | cons n ns ih =>
      rw [List.foldl_cons, ih]
      exact foldl_level_skill_points n _ st

theorem give_level_mutations_upto_equip (sd : SpeciesType → SpeciesDef)
    (species : SpeciesType) (xl : Nat) (st : PlayerState) :
    (give_level_mutations_upto sd species xl st).equip = st.equip := by
  unfold give_level_mutations_upto
  generalize List.range' 2 (xl - 1) = L
  induction L generalizing st with
  | nil => rfl
  | cons n ns ih =>
      rw [List.foldl_cons, ih]
      exact foldl_level_equip n _ st

theorem give_level_mutations_upto_melded (sd : SpeciesType → SpeciesDef)
    (species : SpeciesType) (xl : Nat) (st : PlayerState) :
    (give_level_mutations_upto sd species xl st).melded = st.melded := by
  unfold give_level_mutations_upto
  generalize List.range' 2 (xl - 1) = L
  induction L generalizing st with
  | nil => rfl
  | cons n ns ih =>
      rw [List.foldl_cons, ih]
      exact foldl_level_melded n _ st

theorem foldl_demonic_skill_points (xl : Nat) : ∀ (dt : List DemonicTrait)
    (st : PlayerState),
    (List.foldl (demonic_trait_step xl) st dt).skill_points
      = st.skill_points := by
  intro dt
  induction dt with
  | nil => intro st; rfl
  | cons t ts ih =>
      intro st
      rw [List.foldl_cons, ih]
      unfold demonic_trait_step
      split <;> rfl

theorem foldl_demonic_equip (xl : Nat) : ∀ (dt : List DemonicTrait)
    (st : PlayerState),
    (List.foldl (demonic_trait_step xl) st dt).equip = st.equip := by
  intro dt
  induction dt with
  | nil => intro st; rfl
  | cons t ts ih =>
      intro st
      rw [List.foldl_cons, ih]
      unfold demonic_trait_step
      split <;> rfl

theorem foldl_demonic_melded (xl : Nat) : ∀ (dt : List DemonicTrait)
    (st : PlayerState),
    (List.foldl (demonic_trait_step xl) st dt).melded = st.melded := by
  intro dt
  induction dt with
  | nil => intro st; rfl
  | cons t ts ih =>
      intro st
      rw [List.foldl_cons, ih]
      unfold demonic_trait_step
      split <;> rfl

theorem swap_equip_skill_points (a b : EquipmentType) (st : PlayerState) :
    (swap_equip a b st).skill_points = st.skill_points := rfl

theorem swap_equip_mutation (a b : EquipmentType) (st : PlayerState) :
    (swap_equip a b st).mutation = st.mutation := rfl

theorem swap_equip_innate_mutation (a b : EquipmentType) (st : PlayerState) :
    (swap_equip a b st).innate_mutation = st.innate_mutation := rfl

theorem foldl_fall_skill_points (sp : SpeciesType) :
    ∀ (l : List EquipmentType) (st : PlayerState),
    (List.foldl (fall_step sp) st l).skill_points = st.skill_points := by
  intro l
  induction l with
  | nil => intro st; rfl
  | cons e es ih =>
      intro st
      rw [List.foldl_cons, ih]
      unfold fall_step
      split <;> rfl

theorem foldl_fall_mutation (sp : SpeciesType) :
    ∀ (l : List EquipmentType) (st : PlayerState),
    (List.foldl (fall_step sp) st l).mutation = st.mutation := by
  intro l
  induction l with
  | nil => intro st; rfl
  | cons e es ih =>
      intro st
      rw [List.foldl_cons, ih]
      unfold fall_step
      split <;> rfl

theorem foldl_fall_innate_mutation (sp : SpeciesType) :
    ∀ (l : List EquipmentType) (st : PlayerState),
    (List.foldl (fall_step sp) st l).innate_mutation
      = st.innate_mutation := by
  intro l
  induction l with
  | nil => intro st; rfl
  | cons e es ih =>
      intro st
      rw [List.foldl_cons, ih]
      unfold fall_step
      split <;> rfl

theorem basic_step_mutation (st : PlayerState) (l : LevelUpMut) (i : Nat) :
    (basic_step st l).mutation i
      = if l.xp_level = 1 ∧ l.mut_idx = i then l.mut_level
        else st.mutation i := by
  unfold basic_step
  by_cases h1 : l.xp_level = 1
  · by_cases h2 : l.mut_idx = i
    · simp [h1, h2]
    · simp [h1, h2, Ne.symm h2]
  · simp [h1]

theorem basic_step_innate_mutation (st : PlayerState) (l : LevelUpMut)
    (i : Nat) :
    (basic_step st l).innate_mutation i
      = if l.xp_level = 1 ∧ l.mut_idx = i then l.mut_level
        else st.innate_mutation i := by
  unfold basic_step
  by_cases h1 : l.xp_level = 1
  · by_cases h2 : l.mut_idx = i
    · simp [h1, h2]
    · simp [h1, h2, Ne.symm h2]
  · simp [h1]

theorem foldl_basic_mutation : ∀ (lums : List LevelUpMut)
    (st : PlayerState) (i : Nat),
    (List.foldl basic_step st lums).mutation i
      = basicF lums (st.mutation i) i := by
  intro lums
  induction lums with
  | nil => intro st i; rfl
  | cons l ls ih =>
      intro st i
      rw [List.foldl_cons, ih, basic_step_mutation]
      rfl

theorem foldl_basic_innate_mutation : ∀ (lums : List LevelUpMut)
    (st : PlayerState) (i : Nat),
    (List.foldl basic_step st lums).innate_mutation i
      = basicF lums (st.innate_mutation i) i := by
  intro lums
  induction lums with
  | nil => intro st i; rfl
  | cons l ls ih =>
      intro st i
      rw [List.foldl_cons, ih, basic_step_innate_mutation]
      rfl

theorem give_basic_mutations_mutation (sd : SpeciesType → SpeciesDef)
    (species : SpeciesType) (st : PlayerState) (i : Nat) :
    (give_basic_mutations sd species st).mutation i
      = basicF (sd species).level_up_mutations (st.mutation i) i :=
  foldl_basic_mutation _ _ _

theorem give_basic_mutations_innate_mutation (sd : SpeciesType → SpeciesDef)
    (species : SpeciesType) (st : PlayerState) (i : Nat) :
    (give_basic_mutations sd species st).innate_mutation i
      = basicF (sd species).level_up_mutations (st.innate_mutation i) i :=
  foldl_basic_innate_mutation _ _ _

theorem level_step_mutation (n : Nat) (st : PlayerState) (l : LevelUpMut)
    (i : Nat) :
    (level_step n st l).mutation i
      = st.mutation i
        + (if l.xp_level = n ∧ l.mut_idx = i then l.mut_level else 0) := by
  unfold level_step perma_mutate
  by_cases h1 : l.xp_level = n
  · by_cases h2 : l.mut_idx = i
    · simp [h1, h2]
    · simp [h1, h2, Ne.symm h2]
  · simp [h1]

theorem level_step_innate_mutation (n : Nat) (st : PlayerState)
    (l : LevelUpMut) (i : Nat) :
    (level_step n st l).innate_mutation i
      = st.innate_mutation i
        + (if l.xp_level = n ∧ l.mut_idx = i then l.mut_level else 0) := by
  unfold level_step perma_mutate
  by_cases h1 : l.xp_level = n
  · by_cases h2 : l.mut_idx = i
    · simp [h1, h2]
    · simp [h1, h2, Ne.symm h2]
  · simp [h1]

theorem foldl_level_mutation (n : Nat) : ∀ (lums : List LevelUpMut)
    (st : PlayerState) (i : Nat),
    (List.foldl (level_step n) st lums).mutation i
      = st.mutation i + per_level_sum n i lums := by
  intro lums
  induction lums with
  | nil => intro st i; simp [per_level_sum]
  | cons l ls ih =>
      intro st i
      rw [List.foldl_cons, ih, level_step_mutation, per_level_sum]
      omega

theorem foldl_level_innate_mutation (n : Nat) : ∀ (lums : List LevelUpMut)
    (st : PlayerState) (i : Nat),
    (List.foldl (level_step n) st lums).innate_mutation i
      = st.innate_mutation i + per_level_sum n i lums := by
  intro lums
  induction lums with
  | nil => intro st i; simp [per_level_sum]
  | cons l ls ih =>
      intro st i
      rw [List.foldl_cons, ih, level_step_innate_mutation, per_level_sum]
      omega

theorem give_level_mutations_upto_mutation (sd : SpeciesType → SpeciesDef)
    (species : SpeciesType) (xl : Nat) (st : PlayerState) (i : Nat) :
    (give_level_mutations_upto sd species xl st).mutation i
      = st.mutation i
        + ((List.range' 2 (xl - 1)).map
            (fun n => per_level_sum n i (sd species).level_up_mutations)).sum := by
  unfold give_level_mutations_upto
  generalize List.range' 2 (xl - 1) = L
  induction L generalizing st with
  | nil => simp
  | cons n ns ih =>
      rw [List.foldl_cons, ih]
      unfold give_level_mutations
      rw [foldl_level_mutation, List.map_cons, List.sum_cons]
      omega

theorem give_level_mutations_upto_innate_mutation
    (sd : SpeciesType → SpeciesDef) (species : SpeciesType) (xl : Nat)
    (st : PlayerState) (i : Nat) :
    (give_level_mutations_upto sd species xl st).innate_mutation i
      = st.innate_mutation i
        + ((List.range' 2 (xl - 1)).map
            (fun n => per_level_sum n i (sd species).level_up_mutations)).sum := by
  unfold give_level_mutations_upto
  generalize List.range' 2 (xl - 1) = L
  induction L generalizing st with
  | nil => simp
  | cons n ns ih =>
      rw [List.foldl_cons, ih]
      unfold give_level_mutations
      rw [foldl_level_innate_mutation, List.map_cons, List.sum_cons]
      omega

theorem basicF_no_match (i : Nat) : ∀ (lums : List LevelUpMut) (v : Nat),
    (∀ l ∈ lums, ¬(l.xp_level = 1 ∧ l.mut_idx = i)) →
    basicF lums v i = v := by
  intro lums
  induction lums with
  | nil => intro v _; rfl
  | cons l ls ih =>
      intro v h
      have hl := h l (List.mem_cons_self l ls)
      show basicF ls
        (if l.xp_level = 1 ∧ l.mut_idx = i then l.mut_level else v) i = v
      rw [if_neg hl]
      exact ih v (fun x hx => h x (List.mem_cons_of_mem l hx))

theorem basicF_pos (i : Nat) : ∀ (lums : List LevelUpMut) (v : Nat),
    (∀ l ∈ lums, 1 ≤ l.mut_level) → 1 ≤ v → 1 ≤ basicF lums v i := by
  intro lums
  induction lums with
  | nil => intro v _ hv; exact hv
  | cons l ls ih =>
      intro v h hv
      show 1 ≤ basicF ls
        (if l.xp_level = 1 ∧ l.mut_idx = i then l.mut_level else v) i
      apply ih _ (fun x hx => h x (List.mem_cons_of_mem l hx))
      split
      · exact h l (List.mem_cons_self l ls)
      · exact hv

theorem basicF_pos_of_match (i : Nat) : ∀ (lums : List LevelUpMut) (v : Nat),
    (∀ l ∈ lums, 1 ≤ l.mut_level) →
    (∃ l ∈ lums, l.xp_level = 1 ∧ l.mut_idx = i) →
    1 ≤ basicF lums v i := by
  intro lums
  induction lums with
  | nil =>
      intro v _ hex
      rcases hex with ⟨l, hl, _⟩
      exact absurd hl (List.not_mem_nil l)
  | cons l ls ih =>
      intro v h hex
      show 1 ≤ basicF ls
        (if l.xp_level = 1 ∧ l.mut_idx = i then l.mut_level else v) i
      rcases hex with ⟨x, hx, hxm⟩
      rcases List.mem_cons.mp hx with hxl | hxls
      · subst hxl
        rw [if_pos hxm]
        exact basicF_pos i ls _
          (fun y hy => h y (List.mem_cons_of_mem _ hy))
          (h x (List.mem_cons_self _ _))
      · exact ih _ (fun y hy => h y (List.mem_cons_of_mem _ hy)) ⟨x, hxls, hxm⟩

theorem no_match_of_basicF_zero (i : Nat) (lums : List LevelUpMut)
    (hwf : ∀ l ∈ lums, 1 ≤ l.mut_level) (h0 : basicF lums 0 i = 0) :
    ∀ l ∈ lums, ¬(l.xp_level = 1 ∧ l.mut_idx = i) := by
  intro l hl hm
  have := basicF_pos_of_match i lums 0 hwf ⟨l, hl, hm⟩
  omega

/-- Claim C2: change_species_to rescales accumulated skill points by the
aptitude ratio: for every skill, the points after the change equal the
points before, multiplied by the new species' aptitude factor and divided
by the old species' aptitude factor for that skill. -/
theorem change_species_to_rescales_skill_points
    (sd : SpeciesType → SpeciesDef) (apt : Nat → SpeciesType → Rat)
    (dtraits : List DemonicTrait) (sp : SpeciesType) (st : PlayerState)
    (sk : Nat) :
    (change_species_to sd apt dtraits sp st).skill_points sk
      = st.skill_points sk * apt sk sp / apt sk st.species := by
  simp only [change_species_to, foldl_fall_skill_points, ite_skill_points,
    swap_equip_skill_points, foldl_demonic_skill_points,
    give_level_mutations_upto_skill_points, give_basic_mutations_skill_points,
    ite_self]
  rw [mul_div_assoc]

theorem ite_equip (c : Prop) [Decidable c] (a b : PlayerState) :
    (if c then a else b).equip = if c then a.equip else b.equip := by
  split <;> rfl

theorem ite_melded (c : Prop) [Decidable c] (a b : PlayerState) :
    (if c then a else b).melded = if c then a.melded else b.melded := by
  split <;> rfl

theorem swap_equip_equip (a b : EquipmentType) (s : PlayerState)
    (x : EquipmentType) :
    (swap_equip a b s).equip x
      = if x = a then s.equip b
        else if x = b then s.equip a else s.equip x := rfl

theorem swap_equip_melded (a b : EquipmentType) (s : PlayerState)
    (x : EquipmentType) :
    (swap_equip a b s).melded x
      = if x = a then s.melded b
        else if x = b then s.melded a else s.melded x := rfl

theorem fall_step_other (sp : SpeciesType) (st : PlayerState)
    (e x : EquipmentType) (hx : x ≠ e) :
    (fall_step sp st e).equip x = st.equip x
    ∧ (fall_step sp st e).melded x = st.melded x := by
  unfold fall_step
  split
  · exact ⟨by simp [hx], by simp [hx]⟩
  · exact ⟨rfl, rfl⟩

theorem fall_step_self (sp : SpeciesType) (st : PlayerState)
    (e : EquipmentType) :
    (fall_step sp st e).equip e
      = (if species_bans_eq sp e = true ∧ st.equip e ≠ -1 then -1
         else st.equip e)
    ∧ (fall_step sp st e).melded e
      = (if species_bans_eq sp e = true ∧ st.equip e ≠ -1 then false
         else st.melded e) := by
  unfold fall_step you_can_wear_mb_false
  split
  case isTrue h => exact ⟨by simp, by simp⟩
  case isFalse h => exact ⟨rfl, rfl⟩

theorem foldl_fall_not_mem (sp : SpeciesType) :
    ∀ (l : List EquipmentType) (st : PlayerState) (x : EquipmentType),
      x ∉ l →
      (List.foldl (fall_step sp) st l).equip x = st.equip x
      ∧ (List.foldl (fall_step sp) st l).melded x = st.melded x := by
  intro l
  induction l with
  | nil => intro st x _; exact ⟨rfl, rfl⟩
  | cons e es ih =>
      intro st x hx
      have hxe : x ≠ e := fun h => hx (h ▸ List.mem_cons_self e es)
      have hxs : x ∉ es := fun h => hx (List.mem_cons_of_mem e h)
      rcases ih (fall_step sp st e) x hxs with ⟨h1, h2⟩
      rcases fall_step_other sp st e x hxe with ⟨g1, g2⟩
      exact ⟨by rw [List.foldl_cons, h1, g1],
             by rw [List.foldl_cons, h2, g2]⟩

theorem foldl_fall_mem (sp : SpeciesType) :
    ∀ (l : List EquipmentType) (st : PlayerState) (x : EquipmentType),
      l.Nodup → x ∈ l →
      (List.foldl (fall_step sp) st l).equip x
        = (if species_bans_eq sp x = true ∧ st.equip x ≠ -1 then -1
           else st.equip x)
      ∧ (List.foldl (fall_step sp) st l).melded x
        = (if species_bans_eq sp x = true ∧ st.equip x ≠ -1 then false
           else st.melded x) := by
  intro l
  induction l with
  | nil => intro st x _ hx; exact absurd hx (List.not_mem_nil x)
  | cons e es ih =>
      intro st x hnd hx
      rcases List.mem_cons.mp hx with hxe | hxs
      · subst hxe
        have hes : x ∉ es := (List.nodup_cons.mp hnd).1
        rcases foldl_fall_not_mem sp es (fall_step sp st x) x hes
          with ⟨h1, h2⟩
        rcases fall_step_self sp st x with ⟨g1, g2⟩
        exact ⟨by rw [List.foldl_cons, h1, g1],
               by rw [List.foldl_cons, h2, g2]⟩
      · have hxe : x ≠ e := by
          intro h
          subst h
          exact (List.nodup_cons.mp hnd).1 hxs
        rcases ih (fall_step sp st e) x (List.nodup_cons.mp hnd).2 hxs
          with ⟨h1, h2⟩
        rcases fall_step_other sp st e x hxe with ⟨g1, g2⟩
        refine ⟨?_, ?_⟩
        · rw [List.foldl_cons, h1, g1]
        · rw [List.foldl_cons, h2, g2, g1]

theorem foldl_fall_player_slots_equip (sp : SpeciesType) (st : PlayerState)
    (x : EquipmentType) (hx : x ∈ player_equip_slots) :
    (List.foldl (fall_step sp) st player_equip_slots).equip x
      = (if species_bans_eq sp x = true ∧ st.equip x ≠ -1 then -1
         else st.equip x) :=
  (foldl_fall_mem sp player_equip_slots st x (by decide) hx).1

theorem foldl_fall_player_slots_melded (sp : SpeciesType) (st : PlayerState)
    (x : EquipmentType) (hx : x ∈ player_equip_slots) :
    (List.foldl (fall_step sp) st player_equip_slots).melded x
      = (if species_bans_eq sp x = true ∧ st.equip x ≠ -1 then false
         else st.melded x) :=
  (foldl_fall_mem sp player_equip_slots st x (by decide) hx).2

theorem fall_fold_equip_left (sp : SpeciesType) (st : PlayerState) :
    (List.foldl (fall_step sp) st player_equip_slots).equip EQ_LEFT_RING
      = (if species_bans_eq sp EQ_LEFT_RING = true
            ∧ st.equip EQ_LEFT_RING ≠ -1 then -1
         else st.equip EQ_LEFT_RING) :=
  foldl_fall_player_slots_equip sp st EQ_LEFT_RING (by decide)

theorem fall_fold_equip_right (sp : SpeciesType) (st : PlayerState) :
    (List.foldl (fall_step sp) st player_equip_slots).equip EQ_RIGHT_RING
      = (if species_bans_eq sp EQ_RIGHT_RING = true
            ∧ st.equip EQ_RIGHT_RING ≠ -1 then -1
         else st.equip EQ_RIGHT_RING) :=
  foldl_fall_player_slots_equip sp st EQ_RIGHT_RING (by decide)

theorem fall_fold_equip_one (sp : SpeciesType) (st : PlayerState) :
    (List.foldl (fall_step sp) st player_equip_slots).equip EQ_RING_ONE
      = (if species_bans_eq sp EQ_RING_ONE = true
            ∧ st.equip EQ_RING_ONE ≠ -1 then -1
         else st.equip EQ_RING_ONE) :=
  foldl_fall_player_slots_equip sp st EQ_RING_ONE (by decide)

theorem fall_fold_equip_two (sp : SpeciesType) (st : PlayerState) :
    (List.foldl (fall_step sp) st player_equip_slots).equip EQ_RING_TWO
      = (if species_bans_eq sp EQ_RING_TWO = true
            ∧ st.equip EQ_RING_TWO ≠ -1 then -1
         else st.equip EQ_RING_TWO) :=
  foldl_fall_player_slots_equip sp st EQ_RING_TWO (by decide)

theorem fall_fold_melded_left (sp : SpeciesType) (st : PlayerState) :
    (List.foldl (fall_step sp) st player_equip_slots).melded EQ_LEFT_RING
      = (if species_bans_eq sp EQ_LEFT_RING = true
            ∧ st.equip EQ_LEFT_RING ≠ -1 then false
         else st.melded EQ_LEFT_RING) :=
  foldl_fall_player_slots_melded sp st EQ_LEFT_RING (by decide)

theorem fall_fold_melded_right (sp : SpeciesType) (st : PlayerState) :
    (List.foldl (fall_step sp) st player_equip_slots).melded EQ_RIGHT_RING
      = (if species_bans_eq sp EQ_RIGHT_RING = true
            ∧ st.equip EQ_RIGHT_RING ≠ -1 then false
         else st.melded EQ_RIGHT_RING) :=
  foldl_fall_player_slots_melded sp st EQ_RIGHT_RING (by decide)

theorem fall_fold_melded_one (sp : SpeciesType) (st : PlayerState) :
    (List.foldl (fall_step sp) st player_equip_slots).melded EQ_RING_ONE
      = (if species_bans_eq sp EQ_RING_ONE = true
            ∧ st.equip EQ_RING_ONE ≠ -1 then false
         else st.melded EQ_RING_ONE) :=
  foldl_fall_player_slots_melded sp st EQ_RING_ONE (by decide)

theorem fall_fold_melded_two (sp : SpeciesType) (st : PlayerState) :
    (List.foldl (fall_step sp) st player_equip_slots).melded EQ_RING_TWO
      = (if species_bans_eq sp EQ_RING_TWO = true
            ∧ st.equip EQ_RING_TWO ≠ -1 then false
         else st.melded EQ_RING_TWO) :=
  foldl_fall_player_slots_melded sp st EQ_RING_TWO (by decide)

theorem species_bans_eq_left_ring (sp : SpeciesType) :
    species_bans_eq sp EQ_LEFT_RING = decide (sp = SP_OCTOPODE) := by
  revert sp
  decide

theorem species_bans_eq_right_ring (sp : SpeciesType) :
    species_bans_eq sp EQ_RIGHT_RING = decide (sp = SP_OCTOPODE) := by
  revert sp
  decide

theorem species_bans_eq_ring_one (sp : SpeciesType) :
    species_bans_eq sp EQ_RING_ONE = !decide (sp = SP_OCTOPODE) := by
  revert sp
  decide

theorem species_bans_eq_ring_two (sp : SpeciesType) :
    species_bans_eq sp EQ_RING_TWO = !decide (sp = SP_OCTOPODE) := by
  revert sp
  decide

/-- Claim C1 as amended: for a non-demonspawn target species,
change_species_to preserves the acquired (non-innate) level and installs
the new species' scheduled innate level, at every mutation index at which
the player has no acquired level or the new schedule grants no level up to
the current experience level.  (At an index with both an acquired level
and a scheduled grant the code lets the previous non-innate levels
override the innate ones -- the TODO at species.cc:651 -- refuting the
unrestricted claim; see the counterexample.)  The player state is assumed
well formed (innate level at most total level) and every schedule entry
grants at least one level, as in the real data table. -/
theorem change_species_to_migrates_mutations (sd : SpeciesType → SpeciesDef)
    (apt : Nat → SpeciesType → Rat) (dtraits : List DemonicTrait)
    (sp : SpeciesType) (st : PlayerState) (i : Nat)
    (hds : sp ≠ SP_DEMONSPAWN)
    (hwf : ∀ l ∈ (sd sp).level_up_mutations, 1 ≤ l.mut_level)
    (hinn : st.innate_mutation i ≤ st.mutation i)
    (hdisj : st.mutation i - st.innate_mutation i = 0
        ∨ scheduled_innate (sd sp).level_up_mutations st.experience_level i
            = 0) :
    (change_species_to sd apt dtraits sp st).mutation i
        - (change_species_to sd apt dtraits sp st).innate_mutation i
      = st.mutation i - st.innate_mutation i
    ∧ (change_species_to sd apt dtraits sp st).innate_mutation i
      = scheduled_innate (sd sp).level_up_mutations st.experience_level i := by
  simp only [change_species_to]
  rw [if_neg hds]
  simp only [foldl_fall_mutation, foldl_fall_innate_mutation, ite_mutation,
    ite_innate_mutation, swap_equip_mutation, swap_equip_innate_mutation,
    ite_self, give_level_mutations_upto_mutation,
    give_level_mutations_upto_innate_mutation,
    give_basic_mutations_mutation, give_basic_mutations_innate_mutation,
    give_basic_mutations_experience_level]
  have hP : (if 0 < st.innate_mutation i
        then st.mutation i - st.innate_mutation i else st.mutation i)
      = st.mutation i - st.innate_mutation i := by
    split
    · rfl
    · omega
  have hZ : (if 0 < st.innate_mutation i then (0 : Nat)
        else st.innate_mutation i) = 0 := by
    split
    · rfl
    · omega
  rw [hP, hZ]
  simp only [scheduled_innate] at hdisj ⊢
  rcases hdisj with hA | hN
  · rw [hA]
    refine ⟨?_, ?_⟩ <;> (split <;> omega)
  · have hB1 : basicF (sd sp).level_up_mutations 0 i = 0 := by omega
    have hS : ((List.range' 2 (st.experience_level - 1)).map
        (fun n => per_level_sum n i (sd sp).level_up_mutations)).sum = 0 := by
      omega
    have hnm := no_match_of_basicF_zero i (sd sp).level_up_mutations hwf hB1
    have hB0 := basicF_no_match i (sd sp).level_up_mutations
        (st.mutation i - st.innate_mutation i) hnm
    rw [hB0, hB1, hS]
    refine ⟨?_, ?_⟩ <;> (split <;> omega)

/-- Witness for change_species_to_migrates_mutations: a human with one
acquired level of mutation 0 turned into a naga (empty demo schedule)
keeps the acquired level and ends with the scheduled innate level 0. -/
theorem change_species_to_migrates_mutations_witness :
    (change_species_to sd_basic_demo apt_demo [] SP_NAGA st_demo).mutation 0
        - (change_species_to sd_basic_demo apt_demo []
            SP_NAGA st_demo).innate_mutation 0
      = st_demo.mutation 0 - st_demo.innate_mutation 0
    ∧ (change_species_to sd_basic_demo apt_demo []
        SP_NAGA st_demo).innate_mutation 0
      = scheduled_innate (sd_basic_demo SP_NAGA).level_up_mutations
          st_demo.experience_level 0 :=
  change_species_to_migrates_mutations sd_basic_demo apt_demo [] SP_NAGA
    st_demo 0 (by decide) (by decide) (by decide) (by decide)

/-- Claim C1 counterexample: changing a human with one acquired (and no
innate) level of mutation 0 into a species whose schedule grants one
innate level of mutation 0 at xp level 1 leaves the innate level at 0,
while the schedule installs level 1: the final loop of change_species_to
lets previous non-innate mutations override innate ones (the TODO at
species.cc:651), so the innate levels are not replaced by the new species'
schedule as the claim states. -/
theorem change_species_to_migrates_mutations_counterexample :
    (change_species_to sd_basic_demo apt_demo []
        SP_FELID st_demo).innate_mutation 0 = 0
    ∧ scheduled_innate (sd_basic_demo SP_FELID).level_up_mutations
        st_demo.experience_level 0 = 1 := by
  constructor
  · decide
  · decide

/-- Claim C3: change_species_to exchanges the contents and melded flags of
the EQ_LEFT_RING/EQ_RING_ONE and EQ_RIGHT_RING/EQ_RING_TWO slot pairs
exactly when one of the old and new species is SP_OCTOPODE and the other
is not; when both or neither are SP_OCTOPODE those slots are left as they
were.  The player state is assumed well formed for the old species (slots
it bans are empty and unmelded); the fall-away check you_can_wear is
modelled as the species-level slot ban. -/
theorem change_species_to_swaps_ring_slots (sd : SpeciesType → SpeciesDef)
    (apt : Nat → SpeciesType → Rat) (dtraits : List DemonicTrait)
    (sp : SpeciesType) (st : PlayerState)
    (hwf : ∀ eq : EquipmentType, species_bans_eq st.species eq = true →
      st.equip eq = -1 ∧ st.melded eq = false) :
    ((decide (st.species = SP_OCTOPODE) ≠ decide (sp = SP_OCTOPODE)) →
      ((change_species_to sd apt dtraits sp st).equip EQ_LEFT_RING
          = st.equip EQ_RING_ONE
       ∧ (change_species_to sd apt dtraits sp st).equip EQ_RING_ONE
          = st.equip EQ_LEFT_RING
       ∧ (change_species_to sd apt dtraits sp st).equip EQ_RIGHT_RING
          = st.equip EQ_RING_TWO
       ∧ (change_species_to sd apt dtraits sp st).equip EQ_RING_TWO
          = st.equip EQ_RIGHT_RING
       ∧ (change_species_to sd apt dtraits sp st).melded EQ_LEFT_RING
          = st.melded EQ_RING_ONE
       ∧ (change_species_to sd apt dtraits sp st).melded EQ_RING_ONE
          = st.melded EQ_LEFT_RING
       ∧ (change_species_to sd apt dtraits sp st).melded EQ_RIGHT_RING
          = st.melded EQ_RING_TWO
       ∧ (change_species_to sd apt dtraits sp st).melded EQ_RING_TWO
          = st.melded EQ_RIGHT_RING))
    ∧ ((decide (st.species = SP_OCTOPODE) = decide (sp = SP_OCTOPODE)) →
      ((change_species_to sd apt dtraits sp st).equip EQ_LEFT_RING
          = st.equip EQ_LEFT_RING
       ∧ (change_species_to sd apt dtraits sp st).equip EQ_RING_ONE
          = st.equip EQ_RING_ONE
       ∧ (change_species_to sd apt dtraits sp st).equip EQ_RIGHT_RING
          = st.equip EQ_RIGHT_RING
       ∧ (change_species_to sd apt dtraits sp st).equip EQ_RING_TWO
          = st.equip EQ_RING_TWO
       ∧ (change_species_to sd apt dtraits sp st).melded EQ_LEFT_RING
          = st.melded EQ_LEFT_RING
       ∧ (change_species_to sd apt dtraits sp st).melded EQ_RING_ONE
          = st.melded EQ_RING_ONE
       ∧ (change_species_to sd apt dtraits sp st).melded EQ_RIGHT_RING
          = st.melded EQ_RIGHT_RING
       ∧ (change_species_to sd apt dtraits sp st).melded EQ_RING_TWO
          = st.melded EQ_RING_TWO)) := by
  constructor
  · intro hx
    by_cases ho : st.species = SP_OCTOPODE
    · have hsp : ¬(sp = SP_OCTOPODE) := by
        intro h
        simp [ho, h] at hx
      have hL := hwf EQ_LEFT_RING (by simp [species_bans_eq_left_ring, ho])
      have hR := hwf EQ_RIGHT_RING (by simp [species_bans_eq_right_ring, ho])
      simp only [change_species_to]
      refine ⟨?_, ?_, ?_, ?_, ?_, ?_, ?_, ?_⟩ <;>
        simp [fall_fold_equip_left, fall_fold_equip_right,
          fall_fold_equip_one, fall_fold_equip_two, fall_fold_melded_left,
          fall_fold_melded_right, fall_fold_melded_one, fall_fold_melded_two,
          ite_equip, ite_melded, swap_equip_equip,
          swap_equip_melded, foldl_demonic_equip, foldl_demonic_melded,
          give_level_mutations_upto_equip, give_level_mutations_upto_melded,
          give_basic_mutations_equip, give_basic_mutations_melded,
          species_bans_eq_left_ring, species_bans_eq_right_ring,
          species_bans_eq_ring_one, species_bans_eq_ring_two,
          hx, ho, hsp, hL.1, hL.2, hR.1, hR.2]
    · have hsp : sp = SP_OCTOPODE := by
        by_contra h
        simp [ho, h] at hx
      have hO := hwf EQ_RING_ONE (by simp [species_bans_eq_ring_one, ho])
      have hT := hwf EQ_RING_TWO (by simp [species_bans_eq_ring_two, ho])
      simp only [change_species_to]
      refine ⟨?_, ?_, ?_, ?_, ?_, ?_, ?_, ?_⟩ <;>
        simp [fall_fold_equip_left, fall_fold_equip_right,
          fall_fold_equip_one, fall_fold_equip_two, fall_fold_melded_left,
          fall_fold_melded_right, fall_fold_melded_one, fall_fold_melded_two,
          ite_equip, ite_melded, swap_equip_equip,
          swap_equip_melded, foldl_demonic_equip, foldl_demonic_melded,
          give_level_mutations_upto_equip, give_level_mutations_upto_melded,
          give_basic_mutations_equip, give_basic_mutations_melded,
          species_bans_eq_left_ring, species_bans_eq_right_ring,
          species_bans_eq_ring_one, species_bans_eq_ring_two,
          hx, ho, hsp, hO.1, hO.2, hT.1, hT.2]
  · intro hx
    by_cases ho : st.species = SP_OCTOPODE
    · have hsp : sp = SP_OCTOPODE := by
        by_contra h
        simp [ho, h] at hx
      have hL := hwf EQ_LEFT_RING (by simp [species_bans_eq_left_ring, ho])
      have hR := hwf EQ_RIGHT_RING (by simp [species_bans_eq_right_ring, ho])
      simp only [change_species_to]
      refine ⟨?_, ?_, ?_, ?_, ?_, ?_, ?_, ?_⟩ <;>
        simp [fall_fold_equip_left, fall_fold_equip_right,
          fall_fold_equip_one, fall_fold_equip_two, fall_fold_melded_left,
          fall_fold_melded_right, fall_fold_melded_one, fall_fold_melded_two,
          ite_equip, ite_melded, swap_equip_equip,
          swap_equip_melded, foldl_demonic_equip, foldl_demonic_melded,
          give_level_mutations_upto_equip, give_level_mutations_upto_melded,
          give_basic_mutations_equip, give_basic_mutations_melded,
          species_bans_eq_left_ring, species_bans_eq_right_ring,
          species_bans_eq_ring_one, species_bans_eq_ring_two,
          hx, ho, hsp, hL.1, hL.2, hR.1, hR.2]
    · have hsp : ¬(sp = SP_OCTOPODE) := by
        intro h
        simp [ho, h] at hx
      have hO := hwf EQ_RING_ONE (by simp [species_bans_eq_ring_one, ho])
      have hT := hwf EQ_RING_TWO (by simp [species_bans_eq_ring_two, ho])
      simp only [change_species_to]
      refine ⟨?_, ?_, ?_, ?_, ?_, ?_, ?_, ?_⟩ <;>
        simp [fall_fold_equip_left, fall_fold_equip_right,
          fall_fold_equip_one, fall_fold_equip_two, fall_fold_melded_left,
          fall_fold_melded_right, fall_fold_melded_one, fall_fold_melded_two,
          ite_equip, ite_melded, swap_equip_equip,
          swap_equip_melded, foldl_demonic_equip, foldl_demonic_melded,
          give_level_mutations_upto_equip, give_level_mutations_upto_melded,
          give_basic_mutations_equip, give_basic_mutations_melded,
          species_bans_eq_left_ring, species_bans_eq_right_ring,
          species_bans_eq_ring_one, species_bans_eq_ring_two,
          hx, ho, hsp, hO.1, hO.2, hT.1, hT.2]

/-- Witness for change_species_to_swaps_ring_slots: a bare human (nothing
worn, nothing melded) turned into an octopode gets the two ring slot pairs
exchanged. -/
theorem change_species_to_swaps_ring_slots_witness :
    (change_species_to sd_basic_demo apt_demo []
        SP_OCTOPODE st_demo).equip EQ_LEFT_RING
      = st_demo.equip EQ_RING_ONE
    ∧ (change_species_to sd_basic_demo apt_demo []
        SP_OCTOPODE st_demo).equip EQ_RING_ONE
      = st_demo.equip EQ_LEFT_RING
    ∧ (change_species_to sd_basic_demo apt_demo []
        SP_OCTOPODE st_demo).equip EQ_RIGHT_RING
      = st_demo.equip EQ_RING_TWO
    ∧ (change_species_to sd_basic_demo apt_demo []
        SP_OCTOPODE st_demo).equip EQ_RING_TWO
      = st_demo.equip EQ_RIGHT_RING
    ∧ (change_species_to sd_basic_demo apt_demo []
        SP_OCTOPODE st_demo).melded EQ_LEFT_RING
      = st_demo.melded EQ_RING_ONE
    ∧ (change_species_to sd_basic_demo apt_demo []
        SP_OCTOPODE st_demo).melded EQ_RING_ONE
      = st_demo.melded EQ_LEFT_RING
    ∧ (change_species_to sd_basic_demo apt_demo []
        SP_OCTOPODE st_demo).melded EQ_RIGHT_RING
      = st_demo.melded EQ_RING_TWO
    ∧ (change_species_to sd_basic_demo apt_demo []
        SP_OCTOPODE st_demo).melded EQ_RING_TWO
      = st_demo.melded EQ_RIGHT_RING :=
  (change_species_to_swaps_ring_slots sd_basic_demo apt_demo []
    SP_OCTOPODE st_demo (by decide)).1 (by decide)

end Crawl
